import Mathlib

/-!
# Verification of the JMX transcoder (`src/parser/JMXParser.ts`, `src/parser/JMXSerializer.ts`)

A shallow embedding of the repository's JMX parse/serialize pair.

The TypeScript parser consumes the output of `xml2js.parseStringPromise`
with options `explicitArray: true, mergeAttrs: true`.  Under these options
an XML element becomes either a plain string (element with no attributes
and no child elements: its text content, `""` when empty) or an object
whose keys are, in insertion order, the attributes (each a one-element
array holding the attribute string) followed by the child tag names in
order of first occurrence (each an array of the converted children of that
tag, in document order), plus the char-key `_` holding the concatenated
text content when it is nonempty.  `JNode` mirrors this representation;
the `_` char-key is modelled by the separate `text` component, matching
the JavaScript distinction between array-valued tag keys and the plain
string under `_`.

The serializer builds an XML document through `xmlbuilder2`; the document
tree is modelled by `XNode`, and `xml2jsOf` is the (deterministic)
xml2js reading of such a document, so `parse (xml2jsOf (serialize t))`
models the repository's parse-after-serialize composition.  JavaScript
numbers that reach these code paths are always `parseInt` results, so
they are modelled by `JSNum` (an integer or `NaN`).
-/

/-- A JavaScript number as produced by `parseInt(s, 10)`: an integer or `NaN`. -/
inductive JSNum where
  | int (i : Int)
  | nan
deriving DecidableEq, Repr

/-- A JavaScript `number | string` value (the type of `parseIntOrStringProp`). -/
inductive NumOrStr where
  | num (n : JSNum)
  | str (s : String)
deriving DecidableEq, Repr

/-- JavaScript truthiness of a `number | string` value: `0`, `NaN` and `""` are falsy. -/
def NumOrStr.truthy : NumOrStr → Bool
  | .num (.int i) => i != 0
  | .num .nan => false
  | .str s => s != ""

/-- JavaScript `toString()` on a `number | string` value (used by `addProp`). -/
def NumOrStr.toStr : NumOrStr → String
  | .num (.int i) => toString i
  | .num .nan => "NaN"
  | .str s => s

/-- JavaScript `x || d` on an optional `number | string`, defaulting to the integer `d`. -/
def nsOr (v : Option NumOrStr) (d : Int) : NumOrStr :=
  match v with
  | some x => if x.truthy then x else .num (.int d)
  | none => .num (.int d)

/-- JavaScript `x || d` on an optional `parseInt` result, defaulting to the integer `d`. -/
def jsnOr (v : Option JSNum) (d : Int) : Int :=
  match v with
  | some (.int i) => if i = 0 then d else i
  | _ => d

/-- JavaScript `x || d` on an optional string: `undefined` and `""` give the default. -/
def sOr (v : Option String) (d : String) : String :=
  match v with
  | some s => if s = "" then d else s
  | none => d

/-- JavaScript string truthiness of an optional string. -/
def sTruthy (v : Option String) : Bool :=
  match v with
  | some s => s != ""
  | none => false

/-- The whitespace skipped by `parseInt`. -/
def jsIsSpace (c : Char) : Bool :=
  c = ' ' || c = '\t' || c = '\n' || c = '\r' || c = '\x0b' || c = '\x0c'

/-- Drop leading `parseInt` whitespace. -/
def skipSpaces : List Char → List Char
  | [] => []
  | c :: cs => if jsIsSpace c then skipSpaces cs else c :: cs

/-- Longest prefix of decimal digits. -/
def takeDigits : List Char → List Char
  | [] => []
  | c :: cs => if c.isDigit then c :: takeDigits cs else []

/-- Decimal value of a digit list. -/
def digitsToNat (ds : List Char) : Nat :=
  ds.foldl (fun a c => a * 10 + (c.toNat - 48)) 0

/-- JavaScript `parseInt(s, 10)`: skip whitespace, optional sign, longest digit prefix;
`NaN` when no digit follows. -/
def jsParseInt (s : String) : JSNum :=
  let cs := skipSpaces s.data
  match cs with
  | '-' :: rest =>
    let ds := takeDigits rest
    if ds = [] then .nan else .int (-(digitsToNat ds : Int))
  | '+' :: rest =>
    let ds := takeDigits rest
    if ds = [] then .nan else .int (digitsToNat ds)
  | rest =>
    let ds := takeDigits rest
    if ds = [] then .nan else .int (digitsToNat ds)

/-- The xml2js value of one XML element under
`explicitArray: true, mergeAttrs: true` (see the module docstring). -/
inductive JNode where
  | str (s : String)
  | elem (fields : List (String × List JNode)) (text : Option String)

/-- Key lookup in an xml2js object; a plain string has no keys. -/
def JNode.field : JNode → String → Option (List JNode)
  | .str _, _ => none
  | .elem fs _, k => (fs.find? (fun p => p.1 = k)).map (·.2)

/-- Model of `getStringValue(xml.k)` for an array-valued key: the first entry of the array. -/
def firstField (x : JNode) (k : String) : Option JNode :=
  (x.field k).bind List.head?

/-- The `_` char-key of a node (`prop._`); a plain string has no `_` key. -/
def JNode.textOf : JNode → Option String
  | .str _ => none
  | .elem _ t => t

/-- Whether an optional value is exactly the string `s`
(JavaScript `getStringValue(v) === s`; fails for objects and `undefined`). -/
def isStrVal (v : Option JNode) (s : String) : Bool :=
  match v with
  | some (.str t) => t = s
  | _ => false

/-- JavaScript truthiness of an xml2js value (`""` is falsy, objects are truthy). -/
def jTruthyNode : JNode → Bool
  | .str s => s != ""
  | .elem _ _ => true

/-- Model of `props.find(p => getStringValue(p.name) === name)`. -/
def findNamed (props : List JNode) (name : String) : Option JNode :=
  props.find? (fun p => isStrVal (firstField p "name") name)

/-- Find the property with attribute `name` inside the array stored
under `fieldName` (e.g. `xml.stringProp?.find(...)`). -/
def findProp (x : JNode) (fieldName name : String) : Option JNode :=
  (x.field fieldName).bind (fun props => findNamed props name)

/-- Model of `JMXParser.parseStringProp` / `findStringProp`: text of the named `stringProp`. -/
def parseStringProp (x : JNode) (name : String) : Option String :=
  match findProp x "stringProp" name with
  | none => none
  | some p => p.textOf

/-- Model of `JMXParser.parseIntProp`: `parseInt` of the named `intProp`'s text;
`undefined` when the prop is missing or its text is missing or empty. -/
def parseIntProp (x : JNode) (name : String) : Option JSNum :=
  match findProp x "intProp" name with
  | none => none
  | some p =>
    match p.textOf with
    | none => none
    | some v => if v = "" then none else some (jsParseInt v)

/-- Model of `JMXParser.parseBoolProp` / `findBoolProp`: `true` exactly when the named
`boolProp` is present with text `"true"`. -/
def parseBoolProp (x : JNode) (name : String) : Bool :=
  match findProp x "boolProp" name with
  | none => false
  | some p => p.textOf = some "true"

/-- Test that the interpolation marker `"${"` begins at this position. -/
def startsMarker : List Char → Bool
  | '$' :: '\x7b' :: _ => true
  | _ => false

/-- Test that the interpolation marker occurs anywhere in the list. -/
def hasMarkerL : List Char → Bool
  | [] => false
  | c :: cs => startsMarker (c :: cs) || hasMarkerL cs

/-- Whether a string contains the interpolation marker (`strVal.includes` in
the source). -/
def hasInterp (s : String) : Bool :=
  hasMarkerL s.data

/-- Model of `JMXParser.parseIntOrStringProp`: the named `intProp` parsed when present
with nonempty text; else a nonempty `stringProp` text containing `"${"` is
returned verbatim; else `parseInt(strVal, 10) || strVal`; else `undefined`. -/
def parseIntOrStringProp (x : JNode) (name : String) : Option NumOrStr :=
  match parseIntProp x name with
  | some n => some (.num n)
  | none =>
    match parseStringProp x name with
    | none => none
    | some s =>
      if s ≠ "" && hasInterp s then some (.str s)
      else if s ≠ "" then
        match jsParseInt s with
        | .int i => if i = 0 then some (.str s) else some (.num (.int i))
        | .nan => some (.str s)
      else none

/-- Model of `JMXParser.parseCollectionProp`: texts of the `stringProp` children of the
named `collectionProp` (a child that is a plain string contributes `""`,
matching `getStringValue(p._) || ''` on a node with no `_` key). -/
def parseCollectionProp (x : JNode) (name : String) : List String :=
  match findProp x "collectionProp" name with
  | none => []
  | some c =>
    match c.field "stringProp" with
    | none => []
    | some props => props.map (fun p => (p.textOf).getD "")

/-- Model of `getStringValue(xml.k) || d` for attribute-like keys whose values are
strings (attributes are always strings in xml2js output). -/
def attrOr (x : JNode) (k d : String) : String :=
  match firstField x k with
  | some (.str s) => if s = "" then d else s
  | _ => d

/-- Model of `getStringValue(xml.enabled) !== 'false'`. -/
def enabledOfXml (x : JNode) : Bool :=
  !(isStrVal (firstField x "enabled") "false")

/-!
## Domain model (`src/model/types.ts`)

Each `ETree` node carries the fields the parser populates for its kind.
The `type` discriminant of `BaseElement` is the constructor (plus `TGType`
for the three thread-group variants and the explicit name for JSR223 and
unhandled kinds); `testClass` is stored in `EBase` as in the source.
Identity strings (`generateId`) are timestamp/random values in the source;
the parser model assigns the constant `""`, and claims about identity are
stated through the explicit `eraseIds` substitution.
-/

/-- The fields shared by every element (`BaseElement` minus `type`/`children`). -/
structure EBase where
  id : String
  testClass : String
  guiClass : String
  name : String
  enabled : Bool
deriving DecidableEq, Repr

/-- The three thread-group variants. -/
inductive TGType where
  | threadGroup
  | setupThreadGroup
  | postThreadGroup
deriving DecidableEq, Repr

/-- The `testclass`/`type` string of a thread-group variant. -/
def TGType.str : TGType → String
  | .threadGroup => "ThreadGroup"
  | .setupThreadGroup => "SetupThreadGroup"
  | .postThreadGroup => "PostThreadGroup"

/-- Kind-specific fields of a thread group (including its `loopController`). -/
structure TGData where
  comments : Option String
  numThreads : NumOrStr
  rampTime : NumOrStr
  duration : Option NumOrStr
  delay : Option NumOrStr
  scheduler : Bool
  sameUserOnNextIteration : Bool
  onSampleError : String
  loops : NumOrStr
  continueForever : Bool
deriving DecidableEq, Repr

/-- One HTTP request argument. -/
structure HTTPArgM where
  name : String
  value : String
  metadata : String
  alwaysEncode : Bool
deriving DecidableEq, Repr

/-- Kind-specific fields of an HTTP sampler. -/
structure HTTPData where
  comments : Option String
  domain : String
  port : Option JSNum
  protocol : String
  path : String
  method : String
  followRedirects : Bool
  useKeepAlive : Bool
  postBodyRaw : Bool
  bodyData : Option String
  args : List HTTPArgM
  concurrentPool : Option JSNum
  implementation : Option String
deriving DecidableEq, Repr

/-- Kind-specific fields of a regular-expression extractor. -/
structure RegexData where
  refName : String
  regex : String
  template : String
  defaultValue : String
  matchNumber : NumOrStr
  useHeaders : Bool
  defaultEmptyValue : Bool
  scope : Option String
deriving DecidableEq, Repr

/-- Kind-specific fields of a response assertion. -/
structure RAData where
  testField : String
  testType : Int
  testStrings : List String
  assumeSuccess : Bool
  customMessage : Option String
deriving DecidableEq, Repr

/-- One HTTP header entry. -/
structure HeaderM where
  name : String
  value : String
deriving DecidableEq, Repr

/-- Kind-specific fields of a BeanShell assertion. -/
structure BSAData where
  query : String
  filename : Option String
  parameters : Option String
  resetInterpreter : Bool
deriving DecidableEq, Repr

/-- The JSR223 kinds the codec handles. -/
inductive JSRKind where
  | sampler
  | postProcessor
deriving DecidableEq, Repr

/-- The `type` string of a JSR223 kind. -/
def JSRKind.str : JSRKind → String
  | .sampler => "JSR223Sampler"
  | .postProcessor => "JSR223PostProcessor"

/-- The kind-specific payload of one element, without children. -/
inductive ENode where
  | threadGroup (t : TGType) (b : EBase) (d : TGData)
  | httpSampler (b : EBase) (d : HTTPData)
  | regexExtractor (b : EBase) (d : RegexData)
  | responseAssertion (b : EBase) (d : RAData)
  | headerManager (b : EBase) (comments : Option String) (headers : List HeaderM)
  | argumentsElem (b : EBase)
  | jsr223 (k : JSRKind) (b : EBase)
  | beanShellAssertion (b : EBase) (d : BSAData)
  | resultCollector (b : EBase) (errorLogging : Bool)
  | testAction (b : EBase)
  | constantThroughputTimer (b : EBase)
  | unhandled (typeName : String) (b : EBase)
deriving DecidableEq, Repr

mutual
/-- One element of the domain tree with its ordered children. -/
inductive ETree where
  | node (p : ENode) (children : EForest)
deriving DecidableEq, Repr
/-- An ordered sequence of elements. -/
inductive EForest where
  | fnil
  | fcons (t : ETree) (rest : EForest)
deriving DecidableEq, Repr
end

/-- Convert a Lean list of trees to a forest. -/
def toForest : List ETree → EForest
  | [] => .fnil
  | t :: ts => .fcons t (toForest ts)

/-- The shared fields of an element's payload. -/
def ENode.base : ENode → EBase
  | .threadGroup _ b _ => b
  | .httpSampler b _ => b
  | .regexExtractor b _ => b
  | .responseAssertion b _ => b
  | .headerManager b _ _ => b
  | .argumentsElem b => b
  | .jsr223 _ b => b
  | .beanShellAssertion b _ => b
  | .resultCollector b _ => b
  | .testAction b => b
  | .constantThroughputTimer b => b
  | .unhandled _ b => b

/-- The shared fields of a tree's root element. -/
def ETree.base : ETree → EBase
  | .node p _ => p.base

/-- One user-defined variable (`Argument`). -/
structure ArgumentM where
  name : String
  value : String
  metadata : Option String
deriving DecidableEq, Repr

/-- The distinguished root element (`TestPlan`). -/
structure TestPlanM where
  id : String
  testClass : String
  guiClass : String
  name : String
  functionalMode : Bool
  serializeThreadGroups : Bool
  userDefinedVariables : List ArgumentM
  children : EForest
deriving DecidableEq, Repr

/-- The whole parsed file (`JMeterTestPlan`): the root element plus the raw
xml2js values of the `version`, `properties` and `jmeter` attributes. -/
structure JMTestPlan where
  version : Option (List JNode)
  properties : Option (List JNode)
  jmeter : Option (List JNode)
  testPlan : TestPlanM

/-!
## The parser (`JMXParser`)

`parseHashTree` enumerates `Object.keys(hashTree)` — which, for xml2js
output, lists tag names grouped by key in order of first occurrence, not
individual children in document order — and pairs the running element
counter with the position in the `hashTree` array.  The recursion into
child containers is bounded by an explicit `fuel` argument (the source
recursion terminates because the xml2js tree is finite; any fuel at least
the container-nesting depth of the input yields the source's result).
-/

/-- Model of `JMXParser.parseLoopController`: locate the `elementProp` whose
`elementType` attribute is `LoopController`; default `{loops: 1, continueForever: false}`. -/
def findLoopController (x : JNode) : Option JNode :=
  (x.field "elementProp").bind
    (fun props => props.find? (fun p => isStrVal (firstField p "elementType") "LoopController"))

/-- The loop fields extracted by `parseLoopController`, as a pair
`(loops, continueForever)`. -/
def parseLoopController (x : JNode) : NumOrStr × Bool :=
  match findLoopController x with
  | some p =>
    (nsOr (parseIntOrStringProp p "LoopController.loops") 1,
     parseBoolProp p "LoopController.continue_forever")
  | none => (.num (.int 1), false)

/-- Model of `JMXParser.parseThreadGroup` without its children (they are attached by
the tree walk). -/
def parseThreadGroupNode (t : TGType) (x : JNode) : ENode :=
  .threadGroup t
    { id := ""
      testClass := t.str
      guiClass := attrOr x "guiclass" "ThreadGroupGui"
      name := attrOr x "testname" "Thread Group"
      enabled := enabledOfXml x }
    { comments := parseStringProp x "TestPlan.comments"
      numThreads := nsOr (parseIntOrStringProp x "ThreadGroup.num_threads") 1
      rampTime := nsOr (parseIntOrStringProp x "ThreadGroup.ramp_time") 1
      duration := parseIntOrStringProp x "ThreadGroup.duration"
      delay := parseIntOrStringProp x "ThreadGroup.delay"
      scheduler := parseBoolProp x "ThreadGroup.scheduler"
      sameUserOnNextIteration := parseBoolProp x "ThreadGroup.same_user_on_next_iteration"
      onSampleError := sOr (parseStringProp x "ThreadGroup.on_sample_error") "continue"
      loops := (parseLoopController x).1
      continueForever := (parseLoopController x).2 }

/-- Locate `xml.elementProp` entry named `HTTPsampler.Arguments`, then its
`collectionProp` named `Arguments.arguments` (shared by body/argument parsing). -/
def findHTTPArgsCollection (x : JNode) : Option JNode :=
  ((x.field "elementProp").bind
    (fun props => props.find? (fun p => isStrVal (firstField p "name") "HTTPsampler.Arguments"))).bind
    (fun argsProp => findProp argsProp "collectionProp" "Arguments.arguments")

/-- Model of `JMXParser.parseBodyData`: `Argument.value` of the first argument entry. -/
def parseBodyData (x : JNode) : Option String :=
  match findHTTPArgsCollection x with
  | none => none
  | some c =>
    match (c.field "elementProp").bind List.head? with
    | none => none
    | some e => parseStringProp e "Argument.value"

/-- Model of `JMXParser.parseHTTPArguments`. -/
def parseHTTPArguments (x : JNode) : List HTTPArgM :=
  match findHTTPArgsCollection x with
  | none => []
  | some c =>
    match c.field "elementProp" with
    | none => []
    | some elems =>
      elems.map (fun e =>
        { name := (parseStringProp e "Argument.name").getD ""
          value := (parseStringProp e "Argument.value").getD ""
          metadata := (parseStringProp e "Argument.metadata").getD ""
          alwaysEncode := parseBoolProp e "HTTPArgument.always_encode" })

/-- Model of `JMXParser.parseHTTPSampler` without its children. -/
def parseHTTPSamplerNode (x : JNode) : ENode :=
  .httpSampler
    { id := ""
      testClass := "HTTPSamplerProxy"
      guiClass := attrOr x "guiclass" "HttpTestSampleGui"
      name := attrOr x "testname" "HTTP Request"
      enabled := enabledOfXml x }
    { comments := parseStringProp x "TestPlan.comments"
      domain := (parseStringProp x "HTTPSampler.domain").getD ""
      port := parseIntProp x "HTTPSampler.port"
      protocol := sOr (parseStringProp x "HTTPSampler.protocol") "https"
      path := (parseStringProp x "HTTPSampler.path").getD "/"
      method := sOr (parseStringProp x "HTTPSampler.method") "GET"
      followRedirects := parseBoolProp x "HTTPSampler.follow_redirects"
      useKeepAlive := parseBoolProp x "HTTPSampler.use_keepalive"
      postBodyRaw := parseBoolProp x "HTTPSampler.postBodyRaw"
      bodyData := parseBodyData x
      args := parseHTTPArguments x
      concurrentPool := parseIntProp x "HTTPSampler.concurrentPool"
      implementation := parseStringProp x "HTTPSampler.implementation" }

/-- Model of `JMXParser.parseRegexExtractor`. -/
def parseRegexExtractorNode (x : JNode) : ENode :=
  .regexExtractor
    { id := ""
      testClass := "RegexExtractor"
      guiClass := attrOr x "guiclass" "RegexExtractorGui"
      name := attrOr x "testname" "Regular Expression Extractor"
      enabled := enabledOfXml x }
    { refName := (parseStringProp x "RegexExtractor.refname").getD ""
      regex := (parseStringProp x "RegexExtractor.regex").getD ""
      template := sOr (parseStringProp x "RegexExtractor.template") "$1$"
      defaultValue := (parseStringProp x "RegexExtractor.default").getD ""
      matchNumber := nsOr (parseIntOrStringProp x "RegexExtractor.match_number") 1
      useHeaders := parseBoolProp x "RegexExtractor.useHeaders"
      defaultEmptyValue := parseBoolProp x "RegexExtractor.default_empty_value"
      scope := parseStringProp x "Sample.scope" }

/-- Model of `JMXParser.parseResponseAssertion`. -/
def parseResponseAssertionNode (x : JNode) : ENode :=
  .responseAssertion
    { id := ""
      testClass := "ResponseAssertion"
      guiClass := attrOr x "guiclass" "AssertionGui"
      name := attrOr x "testname" "Response Assertion"
      enabled := enabledOfXml x }
    { testField := sOr (parseStringProp x "Assertion.test_field") "response_data"
      testType := jsnOr (parseIntProp x "Assertion.test_type") 2
      testStrings := parseCollectionProp x "Asserion.test_strings"
      assumeSuccess := parseBoolProp x "Assertion.assume_success"
      customMessage := parseStringProp x "Assertion.custom_message" }

/-- Model of `JMXParser.parseHeaderManager`: `Header` entries are kept only when
`name` or `value` is truthy. -/
def parseHeaderManagerNode (x : JNode) : ENode :=
  .headerManager
    { id := ""
      testClass := "HeaderManager"
      guiClass := attrOr x "guiclass" "HeaderPanel"
      name := attrOr x "testname" "HTTP Header Manager"
      enabled := enabledOfXml x }
    none
    (match findProp x "collectionProp" "HeaderManager.headers" with
     | none => []
     | some hp =>
       match hp.field "elementProp" with
       | none => []
       | some elems =>
         elems.filterMap (fun e =>
           let n := parseStringProp e "Header.name"
           let v := parseStringProp e "Header.value"
           if sTruthy n || sTruthy v then
             some { name := n.getD "", value := v.getD "" }
           else none))

/-- Model of `JMXParser.parseBeanShellAssertion`. -/
def parseBeanShellAssertionNode (x : JNode) : ENode :=
  .beanShellAssertion
    { id := ""
      testClass := "BeanShellAssertion"
      guiClass := attrOr x "guiclass" "BeanShellAssertionGui"
      name := attrOr x "testname" "BeanShell Assertion"
      enabled := enabledOfXml x }
    { query := (parseStringProp x "BeanShellAssertion.query").getD ""
      filename := parseStringProp x "BeanShellAssertion.filename"
      parameters := parseStringProp x "BeanShellAssertion.parameters"
      resetInterpreter := parseBoolProp x "BeanShellAssertion.resetInterpreter" }

/-- Model of `JMXParser.parseResultCollector`. -/
def parseResultCollectorNode (x : JNode) : ENode :=
  .resultCollector
    { id := ""
      testClass := "ResultCollector"
      guiClass := attrOr x "guiclass" "ViewResultsFullVisualizer"
      name := attrOr x "testname" "View Results Tree"
      enabled := enabledOfXml x }
    (parseBoolProp x "ResultCollector.error_logging")

/-- Model of `JMXParser.parseArguments`. -/
def parseArgumentsNode (x : JNode) : ENode :=
  .argumentsElem
    { id := ""
      testClass := "Arguments"
      guiClass := attrOr x "guiclass" "ArgumentsPanel"
      name := attrOr x "testname" "User Defined Variables"
      enabled := enabledOfXml x }

/-- Model of `JMXParser.parseJSR223Sampler` / `parseJSR223PostProcessor`. -/
def parseJSR223Node (k : JSRKind) (x : JNode) : ENode :=
  .jsr223 k
    { id := ""
      testClass := k.str
      guiClass := attrOr x "guiclass" "TestBeanGUI"
      name := attrOr x "testname"
        (match k with | .sampler => "JSR223 Sampler" | .postProcessor => "JSR223 PostProcessor")
      enabled := enabledOfXml x }

/-- Model of `JMXParser.parseTestAction` without its children. -/
def parseTestActionNode (x : JNode) : ENode :=
  .testAction
    { id := ""
      testClass := "TestAction"
      guiClass := attrOr x "guiclass" "TestActionGui"
      name := attrOr x "testname" "Test Action"
      enabled := enabledOfXml x }

/-- Model of `JMXParser.parseConstantThroughputTimer`. -/
def parseCTTimerNode (x : JNode) : ENode :=
  .constantThroughputTimer
    { id := ""
      testClass := "ConstantThroughputTimer"
      guiClass := attrOr x "guiclass" "TestBeanGUI"
      name := attrOr x "testname" "Constant Throughput Timer"
      enabled := enabledOfXml x }

/-- The cases of `parseElement`'s `switch (testClass)`. -/
inductive KindTag where
  | tg (t : TGType)
  | http
  | regex
  | respAssert
  | header
  | argsKind
  | jsrKind (k : JSRKind)
  | bsh
  | rc
  | tact
  | ctt
deriving DecidableEq, Repr

/-- The `case` labels of `parseElement`'s `switch`; `none` is the
`default` branch (unknown kind). -/
def dispatchTC (tc : String) : Option KindTag :=
  if tc = "ThreadGroup" then some (.tg .threadGroup)
  else if tc = "SetupThreadGroup" then some (.tg .setupThreadGroup)
  else if tc = "PostThreadGroup" then some (.tg .postThreadGroup)
  else if tc = "HTTPSamplerProxy" then some .http
  else if tc = "RegexExtractor" then some .regex
  else if tc = "ResponseAssertion" then some .respAssert
  else if tc = "HeaderManager" then some .header
  else if tc = "Arguments" then some .argsKind
  else if tc = "JSR223Sampler" then some (.jsrKind .sampler)
  else if tc = "JSR223PostProcessor" then some (.jsrKind .postProcessor)
  else if tc = "BeanShellAssertion" then some .bsh
  else if tc = "ResultCollector" then some .rc
  else if tc = "TestAction" then some .tact
  else if tc = "ConstantThroughputTimer" then some .ctt
  else none

/-- Model of `JMXParser.parseElement`: dispatch on the `testclass` attribute; the kinds
`ThreadGroup`/`SetupThreadGroup`/`PostThreadGroup`, `HTTPSamplerProxy` and
`TestAction` receive the already-reconstructed paired children, every other
kind gets no children, and an unknown `testclass` yields `none` (dropped). -/
def parseElemKind (x : JNode) (kids : EForest) : Option ETree :=
  match firstField x "testclass" with
  | some (.str tc) =>
    match dispatchTC tc with
    | some (.tg t) => some (.node (parseThreadGroupNode t x) kids)
    | some .http => some (.node (parseHTTPSamplerNode x) kids)
    | some .regex => some (.node (parseRegexExtractorNode x) .fnil)
    | some .respAssert => some (.node (parseResponseAssertionNode x) .fnil)
    | some .header => some (.node (parseHeaderManagerNode x) .fnil)
    | some .argsKind => some (.node (parseArgumentsNode x) .fnil)
    | some (.jsrKind k) => some (.node (parseJSR223Node k x) .fnil)
    | some .bsh => some (.node (parseBeanShellAssertionNode x) .fnil)
    | some .rc => some (.node (parseResultCollectorNode x) .fnil)
    | some .tact => some (.node (parseTestActionNode x) kids)
    | some .ctt => some (.node (parseCTTimerNode x) .fnil)
    | none => none
  | _ => none

/-- Pair each list entry with its index, starting at `start`. -/
def withIdx (start : Nat) : List α → List (Nat × α)
  | [] => []
  | a :: as => (start, a) :: withIdx (start + 1) as

/-- The `(key, element)` pairs `parseHashTree` iterates: every non-`hashTree`
key of the container in insertion order, each with its array's entries in order. -/
def elemItems : JNode → List (String × JNode)
  | .str _ => []
  | .elem fs _ =>
    (fs.filter (fun p => p.1 ≠ "hashTree")).flatMap
      (fun p => p.2.map (fun v => (p.1, v)))

/-- Model of `JMXParser.parseHashTree`: pair the running element counter with the
position in the container's `hashTree` array, reconstruct each element,
and drop elements whose kind is unknown (the counter still advances). -/
def parseHashTreeF : Nat → JNode → List ETree
  | 0, _ => []
  | fuel + 1, h =>
    let hts := (h.field "hashTree").getD []
    (withIdx 0 (elemItems h)).filterMap (fun p =>
      let kids : List ETree :=
        match hts[p.1]? with
        | some c => if jTruthyNode c then parseHashTreeF fuel c else []
        | none => []
      parseElemKind p.2.2 (toForest kids))

/-- Model of `JMXParser.parseUserDefinedVariables`. -/
def parseUserDefinedVariables (x : JNode) : List ArgumentM :=
  match (x.field "elementProp").bind
      (fun props => props.find? (fun p => isStrVal (firstField p "name") "TestPlan.user_defined_variables")) with
  | none => []
  | some argsProp =>
    match findProp argsProp "collectionProp" "Arguments.arguments" with
    | none => []
    | some c =>
      match c.field "elementProp" with
      | none => []
      | some elems =>
        elems.map (fun e =>
          { name := (parseStringProp e "Argument.name").getD ""
            value := (parseStringProp e "Argument.value").getD ""
            metadata := parseStringProp e "Argument.metadata" })

/-- Model of `JMXParser.parseTestPlan`: the root element; children are reconstructed
from the paired container when it is truthy. -/
def parseTestPlanM (fuel : Nat) (x : JNode) (childrenHT : JNode) : TestPlanM :=
  { id := ""
    testClass := "TestPlan"
    guiClass := "TestPlanGui"
    name :=
      (match x.field "testname" with
       | some l => match l.head? with
                   | some (.str s) => s
                   | _ => "Test Plan"
       | none => "Test Plan")
    functionalMode := parseBoolProp x "TestPlan.functional_mode"
    serializeThreadGroups := parseBoolProp x "TestPlan.serialize_threadgroups"
    userDefinedVariables := parseUserDefinedVariables x
    children := if jTruthyNode childrenHT then toForest (parseHashTreeF fuel childrenHT) else .fnil }

/-- Model of `JMXParser.parse` applied to the xml2js image of the document root:
`root.hashTree[0]`, then that container's `TestPlan[0]` and `hashTree[0]`
(a missing step is a thrown `TypeError` in the source, modelled as `none`). -/
def parseJM (fuel : Nat) (root : JNode) : Option JMTestPlan :=
  match (root.field "hashTree").bind List.head? with
  | none => none
  | some ht =>
    match (ht.field "TestPlan").bind List.head?, (ht.field "hashTree").bind List.head? with
    | some tpXml, some tpChildren =>
      some
        { version := root.field "version"
          properties := root.field "properties"
          jmeter := root.field "jmeter"
          testPlan := parseTestPlanM fuel tpXml tpChildren }
    | _, _ => none

/-!
## The serializer (`JMXSerializer`)

The xmlbuilder2 document is modelled by `XNode` (element with attribute
list and ordered children, or text).  Each `serialize*` method of the
source appends children to a parent element; here every method returns
the nodes it would append, in the same order.
-/

mutual
/-- One node of the emitted XML document. -/
inductive XNode where
  | el (tag : String) (attrs : List (String × String)) (kids : XNodes)
  | txt (s : String)
/-- An ordered sequence of document nodes. -/
inductive XNodes where
  | xnil
  | xcons (x : XNode) (rest : XNodes)
end

/-- Convert a Lean list of document nodes to an `XNodes` sequence. -/
def xlist : List XNode → XNodes
  | [] => .xnil
  | x :: xs => .xcons x (xlist xs)

/-- JavaScript `Boolean.prototype.toString`. -/
def boolStr (b : Bool) : String := cond b "true" "false"

/-- JavaScript `Number.prototype.toString` on a `parseInt` result. -/
def jsNumStr : JSNum → String
  | .int i => toString i
  | .nan => "NaN"

/-- Truthiness of an optional number (`if (sampler.port)` etc.). -/
def jsnTruthy (v : Option JSNum) : Bool :=
  match v with
  | some (.int i) => i != 0
  | _ => false

/-- Model of `parent.ele('stringProp', {name}).txt(v)`. -/
def sProp (name v : String) : XNode :=
  .el "stringProp" [("name", name)] (xlist [.txt v])

/-- Model of `parent.ele('boolProp', {name}).txt(v.toString())`. -/
def bProp (name : String) (v : Bool) : XNode :=
  .el "boolProp" [("name", name)] (xlist [.txt (boolStr v)])

/-- Model of `parent.ele('intProp', {name}).txt(v)` for an already-rendered value. -/
def iProp (name v : String) : XNode :=
  .el "intProp" [("name", name)] (xlist [.txt v])

/-- Model of `JMXSerializer.addProp`: emit a property tag of the given type whose text
is the value itself when it is a string, else its `toString()`. -/
def addProp (propType name : String) (v : NumOrStr) : XNode :=
  .el propType [("name", name)] (xlist [.txt v.toStr])

/-- The four attributes every element emitter writes. -/
def attrsOf (b : EBase) : List (String × String) :=
  [("guiclass", b.guiClass), ("testclass", b.testClass),
   ("testname", b.name), ("enabled", boolStr b.enabled)]

/-- Model of `JMXSerializer.serializeThreadGroup` (note: `loops` is always emitted as
an `intProp`, whatever its runtime type). -/
def serializeThreadGroupN (t : TGType) (b : EBase) (d : TGData) : XNode :=
  .el t.str (attrsOf b) (xlist (
    (if sTruthy d.comments then [sProp "TestPlan.comments" (d.comments.getD "")] else []) ++
    [addProp "intProp" "ThreadGroup.num_threads" d.numThreads,
     addProp "intProp" "ThreadGroup.ramp_time" d.rampTime] ++
    (match d.duration with
     | some v => [addProp "stringProp" "ThreadGroup.duration" v]
     | none => []) ++
    (match d.delay with
     | some v => [addProp "stringProp" "ThreadGroup.delay" v]
     | none => []) ++
    [bProp "ThreadGroup.same_user_on_next_iteration" d.sameUserOnNextIteration,
     bProp "ThreadGroup.scheduler" d.scheduler,
     sProp "ThreadGroup.on_sample_error" d.onSampleError,
     .el "elementProp"
       [("name", "ThreadGroup.main_controller"), ("elementType", "LoopController"),
        ("guiclass", "LoopControlPanel"), ("testclass", "LoopController"),
        ("testname", "Loop Controller")]
       (xlist [addProp "intProp" "LoopController.loops" d.loops,
               bProp "LoopController.continue_forever" d.continueForever])]))

/-- Model of `JMXSerializer.serializeHTTPSampler`. -/
def serializeHTTPSamplerN (b : EBase) (d : HTTPData) : XNode :=
  .el "HTTPSamplerProxy" (attrsOf b) (xlist (
    (if sTruthy d.comments then [sProp "TestPlan.comments" (d.comments.getD "")] else []) ++
    (if jsnTruthy d.concurrentPool then
       [iProp "HTTPSampler.concurrentPool" (jsNumStr ((d.concurrentPool).getD .nan))]
     else []) ++
    [sProp "HTTPSampler.domain" d.domain,
     sProp "HTTPSampler.protocol" d.protocol,
     sProp "HTTPSampler.path" d.path,
     bProp "HTTPSampler.follow_redirects" d.followRedirects,
     sProp "HTTPSampler.method" d.method,
     bProp "HTTPSampler.use_keepalive" d.useKeepAlive,
     bProp "HTTPSampler.postBodyRaw" d.postBodyRaw] ++
    (if jsnTruthy d.port then [iProp "HTTPSampler.port" (jsNumStr ((d.port).getD .nan))] else []) ++
    (if sTruthy d.implementation then
       [sProp "HTTPSampler.implementation" ((d.implementation).getD "")]
     else []) ++
    [.el "elementProp" [("name", "HTTPsampler.Arguments"), ("elementType", "Arguments")]
       (xlist [.el "collectionProp" [("name", "Arguments.arguments")]
         (xlist (d.args.map (fun a =>
           .el "elementProp" [("name", a.name), ("elementType", "HTTPArgument")]
             (xlist [bProp "HTTPArgument.always_encode" a.alwaysEncode,
                     sProp "Argument.value" a.value,
                     sProp "Argument.metadata" a.metadata]))))])]))

/-- Model of `JMXSerializer.serializeRegexExtractor`. -/
def serializeRegexExtractorN (b : EBase) (d : RegexData) : XNode :=
  .el "RegexExtractor" (attrsOf b) (xlist (
    [bProp "RegexExtractor.useHeaders" d.useHeaders,
     sProp "RegexExtractor.refname" d.refName,
     sProp "RegexExtractor.regex" d.regex,
     sProp "RegexExtractor.template" d.template,
     sProp "RegexExtractor.default" d.defaultValue,
     addProp "intProp" "RegexExtractor.match_number" d.matchNumber,
     bProp "RegexExtractor.default_empty_value" d.defaultEmptyValue] ++
    (if sTruthy d.scope then [sProp "Sample.scope" ((d.scope).getD "")] else [])))

/-- Model of `JMXSerializer.serializeResponseAssertion` (each test string's tag is
named by its first ten characters). -/
def serializeResponseAssertionN (b : EBase) (d : RAData) : XNode :=
  .el "ResponseAssertion" (attrsOf b) (xlist (
    [.el "collectionProp" [("name", "Asserion.test_strings")]
       (xlist (d.testStrings.map (fun s => sProp (s.take 10) s)))] ++
    (if sTruthy d.customMessage then
       [sProp "Assertion.custom_message" ((d.customMessage).getD "")]
     else []) ++
    [sProp "Assertion.test_field" d.testField,
     bProp "Assertion.assume_success" d.assumeSuccess,
     iProp "Assertion.test_type" (toString d.testType)]))

/-- Model of `JMXSerializer.serializeHeaderManager`. -/
def serializeHeaderManagerN (b : EBase) (comments : Option String)
    (headers : List HeaderM) : XNode :=
  .el "HeaderManager" (attrsOf b) (xlist (
    (if sTruthy comments then [sProp "TestPlan.comments" (comments.getD "")] else []) ++
    [.el "collectionProp" [("name", "HeaderManager.headers")]
       (xlist (headers.map (fun h =>
         .el "elementProp" [("name", h.name), ("elementType", "Header")]
           (xlist [sProp "Header.name" h.name, sProp "Header.value" h.value]))))]))

/-- Model of `JMXSerializer.serializeBeanShellAssertion`. -/
def serializeBeanShellAssertionN (b : EBase) (d : BSAData) : XNode :=
  .el "BeanShellAssertion" (attrsOf b) (xlist (
    [sProp "BeanShellAssertion.query" d.query] ++
    (if sTruthy d.filename then [sProp "BeanShellAssertion.filename" ((d.filename).getD "")] else []) ++
    (if sTruthy d.parameters then
       [sProp "BeanShellAssertion.parameters" ((d.parameters).getD "")]
     else []) ++
    [bProp "BeanShellAssertion.resetInterpreter" d.resetInterpreter]))

/-- Model of `JMXSerializer.serializeArguments`. -/
def serializeArgumentsN (b : EBase) : XNode :=
  .el "Arguments" (attrsOf b)
    (xlist [.el "collectionProp" [("name", "Arguments.arguments")] .xnil])

/-- Model of `JMXSerializer.serializeJSR223Element` (fixed property values). -/
def serializeJSR223N (k : JSRKind) (b : EBase) : XNode :=
  .el k.str (attrsOf b) (xlist
    [sProp "scriptLanguage" "groovy",
     sProp "parameters" "",
     sProp "filename" "",
     sProp "cacheKey" "true",
     sProp "script" ""])

/-- Model of `JMXSerializer.serializeResultCollector`: `error_logging` is emitted as
the constant text `'false'`, not from the element's `errorLogging` field. -/
def serializeResultCollectorN (b : EBase) : XNode :=
  .el "ResultCollector" (attrsOf b) (xlist
    [.el "boolProp" [("name", "ResultCollector.error_logging")] (xlist [.txt "false"]),
     sProp "filename" ""])

/-- Model of `JMXSerializer.serializeTestAction` (fixed property values). -/
def serializeTestActionN (b : EBase) : XNode :=
  .el "TestAction" (attrsOf b) (xlist
    [iProp "ActionProcessor.action" "1",
     iProp "ActionProcessor.target" "0",
     sProp "ActionProcessor.duration" "0"])

/-- Model of `JMXSerializer.serializeConstantThroughputTimer` (fixed property values). -/
def serializeCTTimerN (b : EBase) : XNode :=
  .el "ConstantThroughputTimer" (attrsOf b) (xlist
    [iProp "calcMode" "0",
     sProp "throughput" "0"])

/-- Model of `JMXSerializer.serializeElement`: the codec dispatch.  A kind with no
`case` in the source's `switch` falls through and emits nothing. -/
def serializeNode : ENode → Option XNode
  | .threadGroup t b d => some (serializeThreadGroupN t b d)
  | .httpSampler b d => some (serializeHTTPSamplerN b d)
  | .regexExtractor b d => some (serializeRegexExtractorN b d)
  | .responseAssertion b d => some (serializeResponseAssertionN b d)
  | .headerManager b c hs => some (serializeHeaderManagerN b c hs)
  | .argumentsElem b => some (serializeArgumentsN b)
  | .jsr223 k b => some (serializeJSR223N k b)
  | .beanShellAssertion b d => some (serializeBeanShellAssertionN b d)
  | .resultCollector b _ => some (serializeResultCollectorN b)
  | .testAction b => some (serializeTestActionN b)
  | .constantThroughputTimer b => some (serializeCTTimerN b)
  | .unhandled _ _ => none

mutual
/-- Model of `JMXSerializer.serializeChildren`: for every child, emit its element
(if its kind is handled) followed by its paired `hashTree` container. -/
def serializeForest : EForest → XNodes
  | .fnil => .xnil
  | .fcons t rest => serializeTreeInto t (serializeForest rest)
/-- Emit one child and its paired container in front of `acc`. -/
def serializeTreeInto : ETree → XNodes → XNodes
  | .node p kids, acc =>
    let ht := XNode.el "hashTree" [] (serializeForest kids)
    match serializeNode p with
    | some x => .xcons x (.xcons ht acc)
    | none => .xcons ht acc
end

/-- Model of `JMXSerializer.serializeTestPlan`: the `TestPlan` element followed by the
container holding the serialized top-level children. -/
def serializeTestPlanN (p : TestPlanM) : XNodes :=
  .xcons
    (.el "TestPlan"
      [("guiclass", p.guiClass), ("testclass", p.testClass), ("testname", p.name)]
      (xlist (
        [.el "elementProp"
          [("name", "TestPlan.user_defined_variables"), ("elementType", "Arguments"),
           ("guiclass", "ArgumentsPanel"), ("testclass", "Arguments"),
           ("testname", "User Defined Variables")]
          (xlist [.el "collectionProp" [("name", "Arguments.arguments")]
            (xlist (p.userDefinedVariables.map (fun a =>
              .el "elementProp" [("name", a.name), ("elementType", "Argument")]
                (xlist ([sProp "Argument.name" a.name, sProp "Argument.value" a.value] ++
                  (if sTruthy a.metadata then
                     [sProp "Argument.metadata" ((a.metadata).getD "")]
                   else []))))))])] ++
        [bProp "TestPlan.functional_mode" p.functionalMode,
         bProp "TestPlan.serialize_threadgroups" p.serializeThreadGroups])))
    (.xcons (.el "hashTree" [] (serializeForest p.children)) .xnil)

/-- An attribute value written from a stored xml2js value (JavaScript
`String(...)` of an array joins entries with `","`). -/
def attrStrOf (l : List JNode) : String :=
  String.intercalate "," (l.map (fun n =>
    match n with
    | .str s => s
    | .elem _ _ => "[object Object]"))

/-- Model of `JMXSerializer.serialize`: the document root. -/
def serialize (tp : JMTestPlan) : XNode :=
  .el "jmeterTestPlan"
    ((match tp.version with | some l => [("version", attrStrOf l)] | none => []) ++
     (match tp.properties with | some l => [("properties", attrStrOf l)] | none => []) ++
     (match tp.jmeter with | some l => [("jmeter", attrStrOf l)] | none => []))
    (xlist [.el "hashTree" [] (serializeTestPlanN tp.testPlan)])

/-!
## Reading the emitted document back (`xml2js`) and rendering it
-/

/-- Append a converted child to its tag's group, keeping first-occurrence
key order (xml2js object-key insertion order). -/
def addToGroups (gs : List (String × List JNode)) (k : String) (v : JNode) :
    List (String × List JNode) :=
  match gs with
  | [] => [(k, [v])]
  | (k0, vs) :: rest =>
    if k0 = k then (k0, vs ++ [v]) :: rest else (k0, vs) :: addToGroups rest k v

mutual
/-- The xml2js value of an emitted element (see the module docstring):
text-only elements collapse to plain strings, attributes come before child
tags, and empty text yields no `_` key. -/
def xml2jsOf : XNode → JNode
  | .txt s => .str s
  | .el _ attrs kids =>
    let (gs, t) := collectKids kids [] none
    let t0 := match t with
      | some s => if s = "" then none else some s
      | none => none
    if attrs.isEmpty && gs.isEmpty then .str ((t0).getD "")
    else .elem (attrs.map (fun p => (p.1, [JNode.str p.2])) ++ gs) t0

/-- Fold the children of an element into tag groups and concatenated text. -/
def collectKids : XNodes → List (String × List JNode) → Option String →
    List (String × List JNode) × Option String
  | .xnil, gs, t => (gs, t)
  | .xcons (.txt s) rest, gs, t => collectKids rest gs (some ((t.getD "") ++ s))
  | .xcons (.el tag attrs kids) rest, gs, t =>
    collectKids rest (addToGroups gs tag (xml2jsOf (.el tag attrs kids))) t
end

/-- Escape an attribute value (`&`, `<`, `>`, `"`). -/
def escAttr (s : String) : String :=
  s.data.foldl (fun acc c =>
    acc ++ (if c = '&' then "&amp;" else if c = '<' then "&lt;"
            else if c = '>' then "&gt;" else if c = '"' then "&quot;"
            else String.singleton c)) ""

/-- Escape text content (`&`, `<`, `>`). -/
def escText (s : String) : String :=
  s.data.foldl (fun acc c =>
    acc ++ (if c = '&' then "&amp;" else if c = '<' then "&lt;"
            else if c = '>' then "&gt;" else String.singleton c)) ""

/-- Render an attribute list. -/
def renderAttrs (attrs : List (String × String)) : String :=
  attrs.foldl (fun acc p => acc ++ " " ++ p.1 ++ "=\"" ++ escAttr p.2 ++ "\"") ""

/-- Indentation of `n` spaces. -/
def indentSp (n : Nat) : String := String.mk (List.replicate n ' ')

mutual
/-- Pretty-print one element (`prettyPrint: true, indent: '  '`):
self-closing when empty, inline when text-only, indented block otherwise. -/
def renderNode (ind : Nat) : XNode → String
  | .txt s => indentSp ind ++ escText s ++ "\n"
  | .el tag attrs kids =>
    let head := indentSp ind ++ "<" ++ tag ++ renderAttrs attrs
    match kids with
    | .xnil => head ++ "/>\n"
    | .xcons (.txt s) .xnil => head ++ ">" ++ escText s ++ "</" ++ tag ++ ">\n"
    | ks => head ++ ">\n" ++ renderNodes (ind + 2) ks ++ indentSp ind ++ "</" ++ tag ++ ">\n"
/-- Pretty-print a sequence of nodes. -/
def renderNodes (ind : Nat) : XNodes → String
  | .xnil => ""
  | .xcons x rest => renderNode ind x ++ renderNodes ind rest
end

/-- Model of `JMXSerializer.serialize` down to the output text: XML declaration plus
the rendered document tree. -/
def serializeStr (tp : JMTestPlan) : String :=
  "<?xml version=\"1.0\" encoding=\"UTF-8\"?>\n" ++ renderNode 0 (serialize tp)

/-!
## Identity erasure

`generateId` draws from `Date.now()` and `Math.random()`; identity values
are modelled explicitly so that independence from them can be stated.
-/

/-- Replace an element's identity by `""`. -/
def EBase.eraseId (b : EBase) : EBase := { b with id := "" }

/-- Replace a payload's identity by `""`. -/
def ENode.eraseId : ENode → ENode
  | .threadGroup t b d => .threadGroup t b.eraseId d
  | .httpSampler b d => .httpSampler b.eraseId d
  | .regexExtractor b d => .regexExtractor b.eraseId d
  | .responseAssertion b d => .responseAssertion b.eraseId d
  | .headerManager b c hs => .headerManager b.eraseId c hs
  | .argumentsElem b => .argumentsElem b.eraseId
  | .jsr223 k b => .jsr223 k b.eraseId
  | .beanShellAssertion b d => .beanShellAssertion b.eraseId d
  | .resultCollector b e => .resultCollector b.eraseId e
  | .testAction b => .testAction b.eraseId
  | .constantThroughputTimer b => .constantThroughputTimer b.eraseId
  | .unhandled n b => .unhandled n b.eraseId

mutual
/-- Erase every identity in a tree. -/
def ETree.eraseIds : ETree → ETree
  | .node p kids => .node p.eraseId kids.eraseIds
/-- Erase every identity in a forest. -/
def EForest.eraseIds : EForest → EForest
  | .fnil => .fnil
  | .fcons t rest => .fcons t.eraseIds rest.eraseIds
end

/-- Erase every identity in a whole test plan. -/
def JMTestPlan.eraseIds (tp : JMTestPlan) : JMTestPlan :=
  { tp with testPlan := { tp.testPlan with id := "", children := tp.testPlan.children.eraseIds } }

/-!
## Claims
-/

/-- C6 counterexample input: a node with `<stringProp name="P">0</stringProp>`. -/
def inC6 : JNode :=
  .elem [("stringProp", [.elem [("name", [.str "P"])] (some "0")])] none

/-- C6 is falsified at the decimal text `"0"`: the claim says the accessor
yields the integer `0`, but `parseInt('0', 10) || strVal` evaluates to the
raw string `"0"` because the number `0` is falsy. -/
theorem C6_counterexample :
    parseIntOrStringProp inC6 "P" = some (NumOrStr.str "0") ∧
    NumOrStr.str "0" ≠ NumOrStr.num (JSNum.int 0) := by
  exact ⟨rfl, by decide⟩

/-- C6 amended: `parseIntOrStringProp` returns the `parseInt` of an
integer-typed property with nonempty text when one is present (`NaN`
included); else a nonempty string-typed text containing `${` verbatim;
else, for a nonempty string-typed text, its integer parse unless that
parse is `NaN` or `0`, in which case the raw string (so the text `"0"`
yields the string `"0"`); else an empty result. -/
theorem C6_intOrExpression_cases (x : JNode) (name : String) :
    (∀ n, parseIntProp x name = some n →
      parseIntOrStringProp x name = some (.num n)) ∧
    (parseIntProp x name = none →
      ∀ s, parseStringProp x name = some s → s ≠ "" → hasInterp s = true →
        parseIntOrStringProp x name = some (.str s)) ∧
    (parseIntProp x name = none →
      ∀ s, parseStringProp x name = some s → s ≠ "" → hasInterp s = false →
        parseIntOrStringProp x name =
          some (match jsParseInt s with
                | .int i => if i = 0 then .str s else .num (.int i)
                | .nan => .str s)) ∧
    (parseIntProp x name = none → parseStringProp x name = none →
      parseIntOrStringProp x name = none) ∧
    (parseIntProp x name = none → parseStringProp x name = some "" →
      parseIntOrStringProp x name = none) := by
  refine ⟨?_, ?_, ?_, ?_, ?_⟩
  · intro n h
    simp [parseIntOrStringProp, h]
  · intro h0 s hs hne hint
    simp [parseIntOrStringProp, h0, hs, hne, hint]
  · intro h0 s hs hne hint
    simp only [parseIntOrStringProp, h0, hs, hne, hint]
    cases hj : jsParseInt s with
    | int i =>
      by_cases hi : i = 0 <;> simp [hi, hne]
    | nan => simp [hne]
  · intro h0 h1
    simp [parseIntOrStringProp, h0, h1]
  · intro h0 h1
    simp [parseIntOrStringProp, h0, h1]

/-- C6 witness input: `<stringProp name="P">${N}</stringProp>`. -/
def inC6w : JNode :=
  .elem [("stringProp", [.elem [("name", [.str "P"])] (some "$\x7bN\x7d")])] none

/-- C6 witness: the interpolation case at a concrete node. -/
theorem C6_witness :
    parseIntOrStringProp inC6w "P" = some (NumOrStr.str "$\x7bN\x7d") :=
  (C6_intOrExpression_cases inC6w "P").2.1 rfl "$\x7bN\x7d" rfl (by decide) (by decide)

/-- C9 counterexample input: a thread-group node whose `LoopController`
`elementProp` carries `continue_forever = true` but no loops property. -/
def inC9 : JNode :=
  .elem
    [("testclass", [.str "ThreadGroup"]), ("testname", [.str "TG"]),
     ("elementProp",
      [.elem
        [("name", [.str "ThreadGroup.main_controller"]),
         ("elementType", [.str "LoopController"]),
         ("boolProp",
          [.elem [("name", [.str "LoopController.continue_forever"])] (some "true")])]
        none])]
    none

/-- C9 is falsified when the `LoopController` `elementProp` is present,
lacks a loops property, but carries `continue_forever = true`: the loops
default of 1 applies, yet `continueForever` decodes to `true`, not the
claimed `false`. -/
theorem C9_counterexample :
    parseLoopController inC9 = (NumOrStr.num (JSNum.int 1), true) ∧ true ≠ false := by
  exact ⟨rfl, by decide⟩

/-- C9 amended: a thread-group node with no `LoopController` `elementProp`
decodes to loops = 1, continueForever = false; one whose `elementProp` is
present but lacks a loops property decodes to loops = 1 with
`continueForever` equal to its parsed `continue_forever` flag (which
defaults to `false` when absent). -/
theorem C9_loop_defaults (x : JNode) :
    (findLoopController x = none →
      parseLoopController x = (NumOrStr.num (JSNum.int 1), false)) ∧
    (∀ p, findLoopController x = some p →
      parseIntOrStringProp p "LoopController.loops" = none →
      parseLoopController x =
        (NumOrStr.num (JSNum.int 1), parseBoolProp p "LoopController.continue_forever")) := by
  constructor
  · intro h
    simp [parseLoopController, h]
  · intro p hp hloops
    simp [parseLoopController, hp, hloops, nsOr]

/-- C9 witness input: a thread-group node with no `elementProp` at all. -/
def inC9w : JNode :=
  .elem [("testclass", [.str "ThreadGroup"]), ("testname", [.str "TG"])] none

/-- C9 witness: the absent-`elementProp` case at a concrete node. -/
theorem C9_witness :
    parseLoopController inC9w = (NumOrStr.num (JSNum.int 1), false) :=
  (C9_loop_defaults inC9w).1 rfl

/-- The decoded `enabled` flag is the source's `!== 'false'` test. -/
theorem enabledOfXml_true_iff (x : JNode) :
    enabledOfXml x = true ↔ firstField x "enabled" ≠ some (JNode.str "false") := by
  unfold enabledOfXml isStrVal
  cases h : firstField x "enabled" with
  | none => simp
  | some v =>
    cases v with
    | str s => simp [JNode.str.injEq]
    | elem fs t => simp

/-- C10: for every element node the dispatch accepts, the decoded enabled
flag is `true` exactly when the node's `enabled` attribute value is not
the literal string `"false"` (absent, `"FALSE"`, `"0"`, `""` all enable). -/
theorem C10_enabled_decoding (x : JNode) (kids : EForest) (t : ETree)
    (h : parseElemKind x kids = some t) :
    (t.base).enabled = true ↔ firstField x "enabled" ≠ some (JNode.str "false") := by
  have key := enabledOfXml_true_iff x
  unfold parseElemKind at h
  split at h
  · split at h <;> (cases h <;>
      simpa [ETree.base, ENode.base, parseThreadGroupNode, parseHTTPSamplerNode,
        parseRegexExtractorNode, parseResponseAssertionNode, parseHeaderManagerNode,
        parseArgumentsNode, parseJSR223Node, parseBeanShellAssertionNode,
        parseResultCollectorNode, parseTestActionNode, parseCTTimerNode] using key)
  · cases h

/-- C10 witness input: a `ResultCollector` node whose `enabled` attribute is
the (non-lowercase) string `"FALSE"`. -/
def inC10 : JNode :=
  .elem [("testclass", [.str "ResultCollector"]), ("enabled", [.str "FALSE"])] none

/-- C10 witness tree: the decoded node for `inC10`. -/
def outC10 : ETree := .node (parseResultCollectorNode inC10) .fnil

/-- C10 witness: the theorem applied at a concrete node (whose `"FALSE"`
attribute decodes to enabled). -/
theorem C10_witness :
    ((outC10.base).enabled = true ↔
      firstField inC10 "enabled" ≠ some (JNode.str "false")) :=
  C10_enabled_decoding inC10 .fnil outC10 rfl

/-- C4 counterexample payload: an element of a kind (`IfController`, a
member of the model's `ElementType` union) that has no `case` in
`serializeElement`'s dispatch. -/
def inC4 : ENode :=
  .unhandled "IfController"
    { id := "e1", testClass := "IfController", guiClass := "IfControllerPanel",
      name := "If", enabled := true }

/-- C4 is falsified: serializing a tree containing an element of a kind
outside the codec dispatch does not fail — it produces output in which the
element is silently omitted while its paired `hashTree` container is still
emitted. -/
theorem C4_counterexample :
    serializeNode inC4 = none ∧
    serializeForest (.fcons (.node inC4 .fnil) .fnil) =
      .xcons (.el "hashTree" [] .xnil) .xnil := by
  exact ⟨rfl, rfl⟩

/-- C4 amended: serializing an element whose kind has no entry in the codec
dispatch silently emits nothing for the element itself, while
`serializeChildren` still emits its paired children-container (so the
output gains an orphan `hashTree` instead of a reported failure). -/
theorem C4_unknown_kind_emission (n : String) (b : EBase) (kids rest : EForest) :
    serializeNode (.unhandled n b) = none ∧
    serializeForest (.fcons (.node (.unhandled n b) kids) rest) =
      .xcons (.el "hashTree" [] (serializeForest kids)) (serializeForest rest) := by
  constructor
  · rfl
  · simp [serializeForest, serializeTreeInto, serializeNode]

/-- Members of `withIdx start l` have indices below `start + l.length`. -/
theorem withIdx_mem_lt {α : Type} (l : List α) :
    ∀ (start : Nat) (i : Nat) (a : α), (i, a) ∈ withIdx start l → i < start + l.length := by
  induction l with
  | nil => intro start i a h; cases h
  | cons x xs ih =>
    intro start i a h
    cases h with
    | head => simp
    | tail _ hmem =>
      have := ih (start + 1) i a hmem
      simp only [List.length_cons]
      omega

/-- A `filterMap` over an index-decorated list agrees when the functions agree
on every indexed member. -/
theorem filterMap_withIdx_congr {α β : Type} (l : List α) :
    ∀ (start : Nat) (f g : Nat × α → Option β),
      (∀ i a, (i, a) ∈ withIdx start l → f (i, a) = g (i, a)) →
      (withIdx start l).filterMap f = (withIdx start l).filterMap g := by
  induction l with
  | nil => intro start f g _; rfl
  | cons x xs ih =>
    intro start f g hfg
    simp only [withIdx, List.filterMap_cons]
    rw [hfg start x (by simp [withIdx]), ih (start + 1) f g
      (fun i a hmem => hfg i a (by simp [withIdx, hmem]))]

/-- Dropping the index before a `filterMap` over an index-decorated list. -/
theorem filterMap_withIdx_snd {α β : Type} (l : List α) :
    ∀ (start : Nat) (g : α → Option β),
      (withIdx start l).filterMap (fun p => g p.2) = l.filterMap g := by
  induction l with
  | nil => intro start g; rfl
  | cons x xs ih =>
    intro start g
    simp only [withIdx, List.filterMap_cons]
    rw [ih (start + 1) g]

/-- Members of `withIdx start l` have indices at least `start`. -/
theorem withIdx_mem_ge {α : Type} (l : List α) :
    ∀ (start : Nat) (i : Nat) (a : α), (i, a) ∈ withIdx start l → start ≤ i := by
  induction l with
  | nil => intro start i a h; cases h
  | cons x xs ih =>
    intro start i a h
    cases h with
    | head => simp
    | tail _ hmem =>
      have := ih (start + 1) i a hmem
      omega

/-- Index decoration distributes over append. -/
theorem withIdx_append {α : Type} (l1 l2 : List α) :
    ∀ (start : Nat),
      withIdx start (l1 ++ l2) = withIdx start l1 ++ withIdx (start + l1.length) l2 := by
  induction l1 with
  | nil => intro start; simp [withIdx]
  | cons x xs ih =>
    intro start
    have harith : start + 1 + xs.length = start + (xs.length + 1) := by omega
    show (start, x) :: withIdx (start + 1) (xs ++ l2) =
      ((start, x) :: withIdx (start + 1) xs) ++ withIdx (start + (xs.length + 1)) l2
    rw [List.cons_append, ih (start + 1), harith]

/-- The container array paired against the element items
(`hashTree.hashTree || []`). -/
def htsOf (h : JNode) : List JNode := (h.field "hashTree").getD []

/-- The children reconstructed for the element at pairing position `i`: the
`i`-th container's reconstruction when that container exists and is truthy,
else nothing. -/
def kidsAt (fuel : Nat) (hts : List JNode) (i : Nat) : List ETree :=
  match hts[i]? with
  | some c => if jTruthyNode c then parseHashTreeF fuel c else []
  | none => []

/-- One unfolding of `parseHashTree` in terms of `kidsAt`. -/
theorem parseHashTreeF_succ (fuel : Nat) (h : JNode) :
    parseHashTreeF (fuel + 1) h =
      (withIdx 0 (elemItems h)).filterMap
        (fun p => parseElemKind p.2.2 (toForest (kidsAt fuel (htsOf h) p.1))) := rfl

/-- Replace the value stored under the container's `hashTree` key (when the
key is present), leaving every other key unchanged. -/
def replaceHT : JNode → List JNode → JNode
  | .str s, _ => .str s
  | .elem fs t, l =>
    .elem (fs.map (fun p => if p.1 = "hashTree" then ("hashTree", l) else p)) t

/-- Substitution `replaceHT` changes exactly the `hashTree` lookup. -/
theorem field_replaceHT (h : JNode) (l : List JNode) :
    (replaceHT h l).field "hashTree" = (h.field "hashTree").map (fun _ => l) := by
  cases h with
  | str s => rfl
  | elem fs t =>
    induction fs with
    | nil => rfl
    | cons p ps ih =>
      by_cases hp : p.1 = "hashTree"
      · simp [replaceHT, JNode.field, List.find?, hp]
      · simpa [replaceHT, JNode.field, List.find?, hp] using ih

/-- Substitution `replaceHT` does not change the element items. -/
theorem elemItems_replaceHT (h : JNode) (l : List JNode) :
    elemItems (replaceHT h l) = elemItems h := by
  cases h with
  | str s => rfl
  | elem fs t =>
    have hfilter :
        (fs.map (fun p => if p.1 = "hashTree" then ("hashTree", l) else p)).filter
            (fun p => decide (p.1 ≠ "hashTree")) =
          fs.filter (fun p => decide (p.1 ≠ "hashTree")) := by
      induction fs with
      | nil => rfl
      | cons p ps ih =>
        simp only [List.map_cons, List.filter_cons, ih]
        by_cases hp : p.1 = "hashTree"
        · simp [hp]
        · simp [hp]
    simp only [replaceHT, elemItems]
    rw [hfilter]

/-- The container array after `replaceHT`: the substitute when the key
exists, `[]` (as before) when it does not. -/
theorem htsOf_replaceHT (h : JNode) (l : List JNode) :
    htsOf (replaceHT h l) =
      (match h.field "hashTree" with
       | some _ => l
       | none => []) := by
  unfold htsOf
  rw [field_replaceHT]
  cases h.field "hashTree" <;> rfl

/-- C7 amended: for every container node, parsing does not fail and pairing
is positional in the parser's enumeration order: the result is unchanged
when the container array is truncated to the element count (excess
trailing container tags contribute nothing), and the output is the
positionally paired prefix followed by the element tags enumerated beyond
the container count, each still decoded — with an empty children list
(unknown kinds are still dropped). -/
theorem C7_mismatched_counts (fuel : Nat) (h : JNode) :
    parseHashTreeF (fuel + 1) h =
      parseHashTreeF (fuel + 1) (replaceHT h ((htsOf h).take (elemItems h).length)) ∧
    parseHashTreeF (fuel + 1) h =
      (withIdx 0 ((elemItems h).take (htsOf h).length)).filterMap
        (fun p => parseElemKind p.2.2 (toForest (kidsAt fuel (htsOf h) p.1))) ++
      ((elemItems h).drop (htsOf h).length).filterMap
        (fun kv : String × JNode => parseElemKind kv.2 EForest.fnil) := by
  constructor
  · rw [parseHashTreeF_succ, parseHashTreeF_succ, elemItems_replaceHT]
    cases hf : h.field "hashTree" with
    | none =>
      have h1 : htsOf h = [] := by simp [htsOf, hf]
      have h2 : htsOf (replaceHT h ((htsOf h).take (elemItems h).length)) = [] := by
        rw [htsOf_replaceHT, hf]
      rw [h2, h1]
    | some hs =>
      have h1 : htsOf h = hs := by simp [htsOf, hf]
      have h2 : htsOf (replaceHT h ((htsOf h).take (elemItems h).length)) =
          hs.take (elemItems h).length := by
        rw [htsOf_replaceHT, hf, h1]
      rw [h2, h1]
      apply filterMap_withIdx_congr
      intro i a hmem
      have hlt : i < (elemItems h).length := by
        simpa using withIdx_mem_lt (elemItems h) 0 i a hmem
      have htk : (hs.take (elemItems h).length)[i]? = hs[i]? := by
        simp [List.getElem?_take, hlt]
      simp [kidsAt, htk]
  · rw [parseHashTreeF_succ]
    conv_lhs => rw [← List.take_append_drop (htsOf h).length (elemItems h)]
    rw [withIdx_append, List.filterMap_append]
    congr 1
    have hcong :
        (withIdx (0 + ((elemItems h).take (htsOf h).length).length)
            ((elemItems h).drop (htsOf h).length)).filterMap
          (fun p => parseElemKind p.2.2 (toForest (kidsAt fuel (htsOf h) p.1))) =
        (withIdx (0 + ((elemItems h).take (htsOf h).length).length)
            ((elemItems h).drop (htsOf h).length)).filterMap
          (fun p => parseElemKind p.2.2 EForest.fnil) := by
      apply filterMap_withIdx_congr
      intro i a hmem
      have hne : (elemItems h).drop (htsOf h).length ≠ [] := by
        intro h0
        rw [h0] at hmem
        simp [withIdx] at hmem
      have hlen : (htsOf h).length < (elemItems h).length := by
        by_contra hc
        exact hne (List.drop_eq_nil_of_le (by omega))
      have hge := withIdx_mem_ge ((elemItems h).drop (htsOf h).length)
        (0 + ((elemItems h).take (htsOf h).length).length) i a hmem
      have htklen : ((elemItems h).take (htsOf h).length).length = (htsOf h).length := by
        simp [List.length_take]
        omega
      have hnone : (htsOf h)[i]? = none := by
        apply List.getElem?_eq_none
        omega
      simp [kidsAt, hnone, toForest]
    rw [hcong]
    exact filterMap_withIdx_snd _ _ (fun kv : String × JNode => parseElemKind kv.2 EForest.fnil)

/-!
## Concrete documents

XML documents are written as `XNode` trees (so sibling order is visible)
and handed to the parser through `xml2jsOf`.
-/

/-- An empty children-container: `<hashTree/>`. -/
def emptyHT : XNode := .el "hashTree" [] .xnil

/-- The element `<TestPlan guiclass=... testclass="TestPlan" testname="Plan"/>`. -/
def tpPlainEl : XNode :=
  .el "TestPlan"
    [("guiclass", "TestPlanGui"), ("testclass", "TestPlan"), ("testname", "Plan")] .xnil

/-- A thread-group element tag with the given name and no properties. -/
def tgEl (nm : String) : XNode :=
  .el "ThreadGroup"
    [("guiclass", "ThreadGroupGui"), ("testclass", "ThreadGroup"),
     ("testname", nm), ("enabled", "true")] .xnil

/-- An HTTP sampler element tag with no properties. -/
def httpEl : XNode :=
  .el "HTTPSamplerProxy"
    [("guiclass", "HttpTestSampleGui"), ("testclass", "HTTPSamplerProxy"),
     ("testname", "Sampler"), ("enabled", "true")] .xnil

/-- A regex-extractor element tag with no properties. -/
def regexEl : XNode :=
  .el "RegexExtractor" [("testclass", "RegexExtractor"), ("testname", "Extract")] .xnil

/-- A response-assertion element tag with no properties. -/
def assertEl : XNode :=
  .el "ResponseAssertion" [("testclass", "ResponseAssertion"), ("testname", "Assert")] .xnil

/-- A header-manager element tag with no properties. -/
def headerEl : XNode :=
  .el "HeaderManager" [("testclass", "HeaderManager"), ("testname", "Headers")] .xnil

/-- An element tag whose `testclass` is not one of the codec's kinds. -/
def fooEl : XNode :=
  .el "FooSampler" [("testclass", "FooSampler"), ("testname", "Mystery")] .xnil

/-- C2 input: document-order children `A=TG One, ca=(empty), B=Sampler,
cb=(Extract inside), C=TG Two, cc=(Assert inside)` — three element tags of
two distinct tag names, interleaved, each immediately followed by its
paired container. -/
def inC2 : XNode :=
  .el "hashTree" []
    (xlist [tgEl "TG One", emptyHT,
            httpEl, .el "hashTree" [] (xlist [regexEl, emptyHT]),
            tgEl "TG Two", .el "hashTree" [] (xlist [assertEl, emptyHT])])

/-- C2 is falsified (and the positional pairing rule of the spec violated
by the code): for document order `[TG One, Sampler, TG Two]` with
containers `[ca(empty), cb(Extract), cc(Assert)]`, the parser enumerates
elements grouped by tag name, so `TG Two` receives `cb`'s child (the
extractor that belongs to the sampler) and the sampler receives `cc`'s
child — cross-attached — and the output order is scrambled to
`[TG One, TG Two, Sampler]`. -/
theorem C2_cross_attachment :
    parseHashTreeF 6 (xml2jsOf inC2) =
      [.node (parseThreadGroupNode .threadGroup (xml2jsOf (tgEl "TG One"))) .fnil,
       .node (parseThreadGroupNode .threadGroup (xml2jsOf (tgEl "TG Two")))
         (.fcons (.node (parseRegexExtractorNode (xml2jsOf regexEl)) .fnil) .fnil),
       .node (parseHTTPSamplerNode (xml2jsOf httpEl))
         (.fcons (.node (parseResponseAssertionNode (xml2jsOf assertEl)) .fnil) .fnil)] ∧
    (parseHashTreeF 6 (xml2jsOf inC2)).map (fun t => (ETree.base t).name) =
      ["TG One", "TG Two", "Sampler"] := by
  exact ⟨rfl, rfl⟩

/-- C3 input: document-order children `A=TG One(known), ca=(empty),
X=FooSampler(unknown testclass), cx=(Headers inside), B=TG Two(known),
cb=(Assert inside)`. -/
def inC3 : XNode :=
  .el "hashTree" []
    (xlist [tgEl "TG One", emptyHT,
            fooEl, .el "hashTree" [] (xlist [headerEl, emptyHT]),
            tgEl "TG Two", .el "hashTree" [] (xlist [assertEl, emptyHT])])

/-- C3 is falsified: for `[A(known), X(unknown), B(known)]` with containers
`[ca, cx, cb]`, the tag-name grouping pairs `B` with `cx`, so `cx`'s
reconstructed child (the header manager) appears in the output attached to
`B`, and `cb`'s child is dropped — instead of the claimed
`[A(+ca), B(+cb)]` with `cx` nowhere. -/
theorem C3_unknown_kind_containers :
    parseHashTreeF 6 (xml2jsOf inC3) =
      [.node (parseThreadGroupNode .threadGroup (xml2jsOf (tgEl "TG One"))) .fnil,
       .node (parseThreadGroupNode .threadGroup (xml2jsOf (tgEl "TG Two")))
         (.fcons (.node (parseHeaderManagerNode (xml2jsOf headerEl)) .fnil) .fnil)] := by
  exact rfl

/-- C7 counterexample input: two element tags but a single container tag
(holding an extractor), in document order `A, ca, B`. -/
def inC7 : XNode :=
  .el "hashTree" []
    (xlist [tgEl "TG One", .el "hashTree" [] (xlist [regexEl, emptyHT]),
            tgEl "TG Two"])

/-- C7 is falsified in its "trailing unmatched tags contribute no elements"
part: with two element tags and one container tag, the unmatched second
element tag is still decoded (with empty children) — the output has two
elements, not one. -/
theorem C7_counterexample :
    parseHashTreeF 5 (xml2jsOf inC7) =
      [.node (parseThreadGroupNode .threadGroup (xml2jsOf (tgEl "TG One")))
         (.fcons (.node (parseRegexExtractorNode (xml2jsOf regexEl)) .fnil) .fnil),
       .node (parseThreadGroupNode .threadGroup (xml2jsOf (tgEl "TG Two"))) .fnil] ∧
    (parseHashTreeF 5 (xml2jsOf inC7)).length = 2 := by
  exact ⟨rfl, rfl⟩

/-- C1 counterexample input: a well-formed document whose only element is a
`ResultCollector` with `ResultCollector.error_logging = true` (every
`testclass` in the document is handled by the codec; nothing is dropped). -/
def inC1 : XNode :=
  .el "jmeterTestPlan" [("version", "1.2"), ("properties", "5.0"), ("jmeter", "5.6.3")]
    (xlist [.el "hashTree" []
      (xlist [tpPlainEl,
              .el "hashTree" []
                (xlist [.el "ResultCollector"
                          [("guiclass", "ViewResultsFullVisualizer"),
                           ("testclass", "ResultCollector"),
                           ("testname", "Results"), ("enabled", "true")]
                          (xlist [.el "boolProp"
                            [("name", "ResultCollector.error_logging")]
                            (xlist [.txt "true"])]),
                        emptyHT])])])

/-- The `errorLogging` flag of the first top-level child, when it is a
`ResultCollector`. -/
def firstRCerrLog (tp : JMTestPlan) : Option Bool :=
  match tp.testPlan.children with
  | .fcons (.node (.resultCollector _ e) _) _ => some e
  | _ => none

/-- C1 fails on the code: parsing `inC1` yields `errorLogging = true`, but
`serializeResultCollector` writes the constant text `'false'` for
`ResultCollector.error_logging`, so parsing the serialization of the parse
yields `errorLogging = false` — the round-tripped tree is not structurally
equal to the first parse. -/
theorem C1_errorLogging_not_roundtripped :
    (parseJM 9 (xml2jsOf inC1)).bind firstRCerrLog = some true ∧
    ((parseJM 9 (xml2jsOf inC1)).bind
        (fun t => parseJM 9 (xml2jsOf (serialize t)))).bind firstRCerrLog =
      some false := by
  exact ⟨rfl, rfl⟩

/-- C5 counterexample input: a well-formed document with one thread group
whose `LoopController.loops` property holds the text `${LOOP_COUNT}`. -/
def inC5 : XNode :=
  .el "jmeterTestPlan" [("version", "1.2"), ("properties", "5.0"), ("jmeter", "5.6.3")]
    (xlist [.el "hashTree" []
      (xlist [tpPlainEl,
              .el "hashTree" []
                (xlist [.el "ThreadGroup"
                          [("guiclass", "ThreadGroupGui"), ("testclass", "ThreadGroup"),
                           ("testname", "TG"), ("enabled", "true")]
                          (xlist [.el "elementProp"
                            [("name", "ThreadGroup.main_controller"),
                             ("elementType", "LoopController"),
                             ("guiclass", "LoopControlPanel"),
                             ("testclass", "LoopController"),
                             ("testname", "Loop Controller")]
                            (xlist [.el "stringProp"
                              [("name", "LoopController.loops")]
                              (xlist [.txt "$\x7bLOOP_COUNT\x7d"])])]),
                        emptyHT])])])

/-- The `loops` value of the first top-level child, when it is a thread group. -/
def firstTGloops (tp : JMTestPlan) : Option NumOrStr :=
  match tp.testPlan.children with
  | .fcons (.node (.threadGroup _ _ d) _) _ => some d.loops
  | _ => none

/-- C5 fails on the code: the first parse does decode the literal string
`${LOOP_COUNT}`, but `serializeThreadGroup` emits `LoopController.loops` as
an `intProp`, so re-parsing runs `parseInt` on the text (`NaN`) and the
`|| 1` default turns it into the integer 1 — the literal string is not
recovered. -/
theorem C5_loop_expression_not_roundtripped :
    (parseJM 9 (xml2jsOf inC5)).bind firstTGloops =
      some (NumOrStr.str "$\x7bLOOP_COUNT\x7d") ∧
    ((parseJM 9 (xml2jsOf inC5)).bind
        (fun t => parseJM 9 (xml2jsOf (serialize t)))).bind firstTGloops =
      some (NumOrStr.num (JSNum.int 1)) := by
  exact ⟨rfl, rfl⟩

/-- Per-kind emitters never read the element identity. -/
theorem serializeNode_eraseId (p : ENode) : serializeNode p.eraseId = serializeNode p := by
  cases p <;> rfl

mutual
/-- The `serializeChildren` output is unchanged under identity erasure. -/
theorem serializeForest_eraseIds : ∀ f : EForest, serializeForest f.eraseIds = serializeForest f
  | .fnil => rfl
  | .fcons t rest => by
    rw [EForest.eraseIds, serializeForest, serializeForest,
      serializeTreeInto_eraseIds t (serializeForest rest.eraseIds),
      serializeForest_eraseIds rest]
/-- One child's emission is unchanged under identity erasure. -/
theorem serializeTreeInto_eraseIds :
    ∀ (t : ETree) (acc : XNodes), serializeTreeInto t.eraseIds acc = serializeTreeInto t acc
  | .node p kids, acc => by
    rw [ETree.eraseIds, serializeTreeInto, serializeTreeInto,
      serializeForest_eraseIds kids, serializeNode_eraseId]
end

/-- The whole serialization is unchanged under identity erasure. -/
theorem serialize_eraseIds (tp : JMTestPlan) : serialize tp.eraseIds = serialize tp := by
  unfold serialize JMTestPlan.eraseIds
  simp [serializeTestPlanN, serializeForest_eraseIds]

/-- C8: serialization never writes element identity into the output text:
two plans that agree after identity erasure produce byte-identical output. -/
theorem C8_output_independent_of_ids (t1 t2 : JMTestPlan)
    (h : t1.eraseIds = t2.eraseIds) : serializeStr t1 = serializeStr t2 := by
  have hs : serialize t1 = serialize t2 := by
    rw [← serialize_eraseIds t1, ← serialize_eraseIds t2, h]
  unfold serializeStr
  rw [hs]

/-- C8 witness plan: one test action child, with identities `"a"`/`"x"`. -/
def planA : JMTestPlan :=
  { version := some [.str "1.2"], properties := some [.str "5.0"], jmeter := some [.str "5.6"],
    testPlan :=
      { id := "a", testClass := "TestPlan", guiClass := "TestPlanGui", name := "P",
        functionalMode := false, serializeThreadGroups := false,
        userDefinedVariables := [],
        children := .fcons
          (.node (.testAction
            { id := "x", testClass := "TestAction", guiClass := "TestActionGui",
              name := "Pause", enabled := true }) .fnil) .fnil } }

/-- C8 witness plan: the same tree with identities `"b"`/`"y"`. -/
def planB : JMTestPlan :=
  { version := some [.str "1.2"], properties := some [.str "5.0"], jmeter := some [.str "5.6"],
    testPlan :=
      { id := "b", testClass := "TestPlan", guiClass := "TestPlanGui", name := "P",
        functionalMode := false, serializeThreadGroups := false,
        userDefinedVariables := [],
        children := .fcons
          (.node (.testAction
            { id := "y", testClass := "TestAction", guiClass := "TestActionGui",
              name := "Pause", enabled := true }) .fnil) .fnil } }

/-- C8 witness: two concrete plans differing only in identities serialize to
the same text. -/
theorem C8_witness : serializeStr planA = serializeStr planB :=
  C8_output_independent_of_ids planA planB rfl
